import Mathlib

/-!
Shallow embedding of the Minesweeper Co-Op client and server code:
the Zustand store (src/app/store.tsx), the Grid component logic
(src/components/Timer.tsx), the socket client factory, the socket.io
server configuration (src/server/utils/initializeClient.js) and the
Redis session-store client.
-/

namespace Minesweeper

/-- A single cell of the board, as in the store interface `Cell`
(`src/app/store.tsx`). -/
structure Cell where
  isMine : Bool
  isOpen : Bool
  isFlagged : Bool
  nearbyMines : Nat
deriving DecidableEq, Repr

/-- Player statistics row, as in the store interface `PlayerStats`. -/
structure PlayerStats where
  name : String
  score : Int
deriving DecidableEq, Repr

/-- A hover marker, as in the store interface `PlayerHover`. -/
structure PlayerHover where
  row : Int
  col : Int
  name : String
  color : String
deriving DecidableEq, Repr

/-- Opponent status values in PVP mode. -/
inductive PvpStatus where
  | waiting
  | playing
  | won
  | failed
  | disconnected
deriving DecidableEq, Repr

/-!
## Grid component (src/components/Timer.tsx)
-/

/-- The `ownProgress` memo of the Grid component: a nested loop over the
board counting cells with `isOpen && !isMine`. -/
def ownProgress (board : List (List Cell)) : Nat :=
  board.foldl
    (fun revealedCount row =>
      row.foldl
        (fun cnt cell => if cell.isOpen && !cell.isMine then cnt + 1 else cnt)
        revealedCount)
    0

/-- Inputs of the chording-detection effect of the Grid component: the
store fields it reads. -/
structure ChordInputState where
  leftClick : Bool
  rightClick : Bool
  r : Int
  c : Int
  bothPressed : Bool
deriving DecidableEq, Repr

/-- Actions the Grid component can issue towards the server: the two we
need to distinguish for chording. -/
inductive GridAction where
  | chordCell (row col : Int)
  | openCell (row col : Int)
deriving DecidableEq, Repr

/-- The chording-detection effect of the Grid component: when both mouse
buttons are pressed it latches `bothPressed` and, when the hover
coordinates are valid, issues a single `chordCell` action; when both
buttons are released it clears the latch; in the mixed case it does
nothing. Returns the updated state together with the actions issued. -/
def chordingEffect (s : ChordInputState) : ChordInputState × List GridAction :=
  if s.leftClick && s.rightClick then
    ({ s with bothPressed := true },
      if 0 ≤ s.r ∧ 0 ≤ s.c then [GridAction.chordCell s.r s.c] else [])
  else if !s.leftClick && !s.rightClick then
    ({ s with bothPressed := false }, [])
  else
    (s, [])

/-!
## Lemmas about `ownProgress`
-/

theorem foldl_countRow (p : Cell → Bool) (row : List Cell) (a : Nat) :
    row.foldl (fun cnt cell => if p cell then cnt + 1 else cnt) a
      = a + (row.filter p).length := by
  induction row generalizing a with
  | nil => simp
  | cons hd tl ih =>
      by_cases hp : p hd
      · simp [List.foldl_cons, hp, ih, List.filter_cons]
        omega
      · simp [List.foldl_cons, hp, ih, List.filter_cons]

theorem ownProgress_foldl (board : List (List Cell)) (a : Nat) :
    board.foldl
        (fun revealedCount row =>
          row.foldl
            (fun cnt cell => if cell.isOpen && !cell.isMine then cnt + 1 else cnt)
            revealedCount)
        a
      = a + (board.flatten.filter (fun cell => cell.isOpen && !cell.isMine)).length := by
  induction board generalizing a with
  | nil => simp
  | cons hd tl ih =>
      rw [List.foldl_cons, ih, foldl_countRow, List.flatten_cons, List.filter_append,
        List.length_append]
      omega

/-- Claim C2: the own-progress value computed by the Grid component equals
the number of cells of the board that are open and not mines; an open mine
or a closed safe cell appended to the board leaves it unchanged. -/
theorem ownProgress_counts_open_safe (board : List (List Cell)) :
    ownProgress board
        = (board.flatten.filter (fun cell => cell.isOpen && !cell.isMine)).length
    ∧ (∀ cell : Cell, (cell.isOpen = false ∨ cell.isMine = true) →
        ownProgress (board ++ [[cell]]) = ownProgress board) := by
  constructor
  · have h := ownProgress_foldl board 0
    rw [Nat.zero_add] at h
    exact h
  · intro cell hcell
    have h1 := ownProgress_foldl (board ++ [[cell]]) 0
    have h2 := ownProgress_foldl board 0
    rw [Nat.zero_add] at h1 h2
    have hnot : (cell.isOpen && !cell.isMine) = false := by
      rcases hcell with h | h <;> simp [h]
    show ownProgress (board ++ [[cell]]) = ownProgress board
    rw [ownProgress, ownProgress, h1, h2]
    simp [List.flatten_append, List.filter_append, List.filter_cons, hnot]

/-- Witness for C2 at a concrete board. -/
theorem ownProgress_counts_open_safe_witness :
    ownProgress [[⟨false, true, false, 1⟩, ⟨true, true, false, 0⟩],
        [⟨false, false, false, 2⟩]]
      = ((([[⟨false, true, false, 1⟩, ⟨true, true, false, 0⟩],
        [⟨false, false, false, 2⟩]] : List (List Cell)).flatten.filter
          (fun cell => cell.isOpen && !cell.isMine)).length)
    ∧ ownProgress ([[⟨false, true, false, 1⟩]] ++ [[⟨true, true, false, 0⟩]])
      = ownProgress [[⟨false, true, false, 1⟩]] :=
  ⟨(ownProgress_counts_open_safe _).1,
   (ownProgress_counts_open_safe [[⟨false, true, false, 1⟩]]).2
      ⟨true, true, false, 0⟩ (Or.inr rfl)⟩


/-!
## The Zustand store state (src/app/store.tsx)

The state fields of the `MinesweeperState` interface (the setters are
modelled as functions from state to state).
-/

/-- The state part of the store interface `MinesweeperState`. -/
structure MinesweeperState where
  board : List (List Cell)
  gameOver : Bool
  gameWon : Bool
  numRows : Int
  numCols : Int
  numMines : Int
  difficulty : String
  mode : String
  room : String
  playerJoined : Bool
  name : String
  playerStatsInRoom : List PlayerStats
  gameOverName : String
  playerHovers : List (String × PlayerHover)
  pvpStarted : Bool
  pvpPlayerIndex : Option Int
  pvpOpponentName : String
  pvpOpponentStatus : PvpStatus
  pvpWinner : Option String
  pvpRoomReady : Bool
  pvpIsHost : Bool
  pvpOpponentProgress : Int
  pvpTotalSafeCells : Int
  timerSeconds : Int
  timerRunning : Bool
  isChecked : Bool
  r : Int
  c : Int
  leftClick : Bool
  rightClick : Bool
  bothPressed : Bool
deriving Repr

/-- The initial state of the store. -/
def initialState : MinesweeperState where
  board := []
  gameOver := false
  gameWon := false
  numRows := 16
  numCols := 16
  numMines := 40
  difficulty := "Medium"
  mode := "co-op"
  room := ""
  playerJoined := false
  name := ""
  playerStatsInRoom := []
  gameOverName := ""
  playerHovers := []
  pvpStarted := false
  pvpPlayerIndex := none
  pvpOpponentName := ""
  pvpOpponentStatus := PvpStatus.waiting
  pvpWinner := none
  pvpRoomReady := false
  pvpIsHost := false
  pvpOpponentProgress := 0
  pvpTotalSafeCells := 0
  timerSeconds := 0
  timerRunning := false
  isChecked := true
  r := -1
  c := -1
  leftClick := false
  rightClick := false
  bothPressed := false

/-- The store setter `resetPvpState`: resets all PVP state for leaving a
room or a rematch. -/
def resetPvpState (s : MinesweeperState) : MinesweeperState :=
  { s with
    pvpStarted := false
    pvpPlayerIndex := none
    pvpOpponentName := ""
    pvpOpponentStatus := PvpStatus.waiting
    pvpWinner := none
    pvpRoomReady := false
    pvpIsHost := false
    pvpOpponentProgress := 0
    pvpTotalSafeCells := 0
    gameOver := false
    gameWon := false }

/-- Map over a list with the element index, starting at index `i`:
the index-aware part of the JavaScript `Array.prototype.map`. -/
def mapWithIndexFrom {α β : Type} (f : Nat → α → β) (i : Nat) : List α → List β
  | [] => []
  | a :: as => f i a :: mapWithIndexFrom f (i + 1) as

/-- Map over a list with the element index, as the JavaScript
`Array.prototype.map` with its index argument. -/
def mapWithIndex {α β : Type} (f : Nat → α → β) (l : List α) : List β :=
  mapWithIndexFrom f 0 l

/-- The store setter `setCell`: rebuilds the board, replacing the cell
whose row and column indices equal `row` and `col` by `newCell`. The
requested coordinates are JavaScript numbers, so possibly negative; the
array indices they are compared with are natural. -/
def setCell (row col : Int) (newCell : Cell) (s : MinesweeperState) : MinesweeperState :=
  { s with
    board :=
      mapWithIndex
        (fun rowIndex rw =>
          mapWithIndex
            (fun colIndex cell =>
              if (rowIndex : Int) = row ∧ (colIndex : Int) = col then newCell else cell)
            rw)
        s.board }

/-- Look a cell up by row and column index. -/
def getCell (board : List (List Cell)) (r c : Nat) : Option Cell :=
  (board.get? r).bind (fun row => row.get? c)

/-!
## Claim C1: chording detection
-/

/-- Claim C1: the chording-detection effect issues a `chordCell` action
exactly when both buttons are pressed and the hover coordinates are valid;
it never issues an open action and never more than one action; when only
one button is pressed it issues nothing and leaves the latch unchanged;
and the latch goes from set to cleared only when both buttons are
released. -/
theorem chording_atomic_detection (s : ChordInputState) :
    ((chordingEffect s).2 = [GridAction.chordCell s.r s.c] ↔
        (s.leftClick = true ∧ s.rightClick = true ∧ 0 ≤ s.r ∧ 0 ≤ s.c))
    ∧ (∀ row col : Int, GridAction.openCell row col ∉ (chordingEffect s).2)
    ∧ (chordingEffect s).2.length ≤ 1
    ∧ (s.leftClick ≠ s.rightClick →
        (chordingEffect s).2 = [] ∧ (chordingEffect s).1.bothPressed = s.bothPressed)
    ∧ (s.bothPressed = true → (chordingEffect s).1.bothPressed = false →
        s.leftClick = false ∧ s.rightClick = false) := by
  obtain ⟨l, rgt, r, c, bp⟩ := s
  cases l <;> cases rgt <;>
    by_cases hrc : 0 ≤ r ∧ 0 ≤ c <;>
      simp [chordingEffect, hrc]

/-- Witness for C1: both buttons pressed at hover coordinates (2, 3)
issues exactly the single chord action. -/
theorem chording_atomic_detection_witness :
    (chordingEffect ⟨true, true, 2, 3, false⟩).2 = [GridAction.chordCell 2 3] :=
  (chording_atomic_detection ⟨true, true, 2, 3, false⟩).1.mpr
    ⟨rfl, rfl, by norm_num, by norm_num⟩

/-!
## Lemmas about `mapWithIndexFrom`
-/

theorem mapWithIndexFrom_get {α β : Type} (f : Nat → α → β) (i n : Nat) (l : List α) :
    (mapWithIndexFrom f i l).get? n = (l.get? n).map (f (i + n)) := by
  induction l generalizing i n with
  | nil => simp [mapWithIndexFrom]
  | cons hd tl ih =>
      cases n with
      | zero => simp [mapWithIndexFrom]
      | succ m =>
          simp only [mapWithIndexFrom, List.get?_cons_succ, ih]
          have heq : i + 1 + m = i + (m + 1) := by omega
          rw [heq]

theorem mapWithIndexFrom_eq_self {α : Type} (f : Nat → α → α) (i : Nat) (l : List α)
    (h : ∀ (n : Nat) (a : α), l.get? n = some a → f (i + n) a = a) :
    mapWithIndexFrom f i l = l := by
  induction l generalizing i with
  | nil => rfl
  | cons hd tl ih =>
      have h0 : f i hd = hd := by simpa using h 0 hd rfl
      have htl : mapWithIndexFrom f (i + 1) tl = tl := by
        apply ih
        intro n a hn
        have hh := h (n + 1) a (by simpa using hn)
        have heq : i + 1 + n = i + (n + 1) := by omega
        rw [heq]
        exact hh
      simp only [mapWithIndexFrom, h0, htl]

/-!
## Claim C9: frame effect of `setCell`
-/

/-- Claim C9: `setCell row col newCell` changes at most the cell at
`(row, col)`: every cell at other coordinates is unchanged, every
non-board field of the store is unchanged, and when no cell of the board
lies at `(row, col)` the whole board is unchanged. -/
theorem setCell_frame (s : MinesweeperState) (row col : Int) (newCell : Cell) :
    (∀ (rr cc : Nat), ¬((rr : Int) = row ∧ (cc : Int) = col) →
        getCell (setCell row col newCell s).board rr cc = getCell s.board rr cc)
    ∧ (setCell row col newCell s).gameOver = s.gameOver
    ∧ (setCell row col newCell s).gameWon = s.gameWon
    ∧ (setCell row col newCell s).numRows = s.numRows
    ∧ (setCell row col newCell s).numCols = s.numCols
    ∧ (setCell row col newCell s).numMines = s.numMines
    ∧ (setCell row col newCell s).difficulty = s.difficulty
    ∧ (setCell row col newCell s).mode = s.mode
    ∧ (setCell row col newCell s).room = s.room
    ∧ (setCell row col newCell s).playerJoined = s.playerJoined
    ∧ (setCell row col newCell s).name = s.name
    ∧ (setCell row col newCell s).playerStatsInRoom = s.playerStatsInRoom
    ∧ (setCell row col newCell s).gameOverName = s.gameOverName
    ∧ (setCell row col newCell s).playerHovers = s.playerHovers
    ∧ (setCell row col newCell s).pvpStarted = s.pvpStarted
    ∧ (setCell row col newCell s).pvpPlayerIndex = s.pvpPlayerIndex
    ∧ (setCell row col newCell s).pvpOpponentName = s.pvpOpponentName
    ∧ (setCell row col newCell s).pvpOpponentStatus = s.pvpOpponentStatus
    ∧ (setCell row col newCell s).pvpWinner = s.pvpWinner
    ∧ (setCell row col newCell s).pvpRoomReady = s.pvpRoomReady
    ∧ (setCell row col newCell s).pvpIsHost = s.pvpIsHost
    ∧ (setCell row col newCell s).pvpOpponentProgress = s.pvpOpponentProgress
    ∧ (setCell row col newCell s).pvpTotalSafeCells = s.pvpTotalSafeCells
    ∧ (setCell row col newCell s).timerSeconds = s.timerSeconds
    ∧ (setCell row col newCell s).timerRunning = s.timerRunning
    ∧ (setCell row col newCell s).isChecked = s.isChecked
    ∧ (setCell row col newCell s).r = s.r
    ∧ (setCell row col newCell s).c = s.c
    ∧ (setCell row col newCell s).leftClick = s.leftClick
    ∧ (setCell row col newCell s).rightClick = s.rightClick
    ∧ (setCell row col newCell s).bothPressed = s.bothPressed
    ∧ ((∀ (rr cc : Nat), getCell s.board rr cc ≠ none →
          ¬((rr : Int) = row ∧ (cc : Int) = col)) →
        (setCell row col newCell s).board = s.board) := by
  refine ⟨?_, rfl, rfl, rfl, rfl, rfl, rfl, rfl, rfl, rfl, rfl, rfl, rfl, rfl, rfl,
    rfl, rfl, rfl, rfl, rfl, rfl, rfl, rfl, rfl, rfl, rfl, rfl, rfl, rfl, rfl, rfl, ?_⟩
  · intro rr cc hne
    show getCell (mapWithIndex _ s.board) rr cc = getCell s.board rr cc
    simp only [getCell, mapWithIndex]
    rw [mapWithIndexFrom_get]
    cases hrow : s.board.get? rr with
    | none => rfl
    | some rw0 =>
        simp only [Option.map_some', Option.some_bind, Nat.zero_add]
        rw [mapWithIndexFrom_get]
        cases hcol : rw0.get? cc with
        | none => rfl
        | some cell =>
            simp only [Option.map_some', Nat.zero_add]
            rw [if_neg hne]
  · intro hout
    show mapWithIndex _ s.board = s.board
    simp only [mapWithIndex]
    apply mapWithIndexFrom_eq_self
    intro n rw0 hn
    simp only [Nat.zero_add, mapWithIndex]
    apply mapWithIndexFrom_eq_self
    intro m cell hm
    have hcell : getCell s.board n m = some cell := by
      rw [getCell, hn]
      simpa using hm
    rw [Nat.zero_add, if_neg (hout n m (by rw [hcell]; simp))]

/-- Witness for C9: updating cell (0, 0) of a concrete two-cell board
leaves the cell at (0, 1), the room field, and (for out-of-range
coordinates) the whole board untouched. -/
theorem setCell_frame_witness :
    getCell (setCell 0 0 ⟨false, true, false, 0⟩
        { initialState with
          board := [[⟨false, false, false, 0⟩, ⟨true, false, false, 1⟩]] }).board 0 1
      = some ⟨true, false, false, 1⟩
    ∧ (setCell 0 0 ⟨false, true, false, 0⟩
        { initialState with
          board := [[⟨false, false, false, 0⟩, ⟨true, false, false, 1⟩]] }).room
      = ""
    ∧ (setCell (-3) 7 ⟨false, true, false, 0⟩
        { initialState with
          board := [[⟨false, false, false, 0⟩, ⟨true, false, false, 1⟩]] }).board
      = [[⟨false, false, false, 0⟩, ⟨true, false, false, 1⟩]] := by
  refine ⟨?_, ?_, ?_⟩
  · have h := (setCell_frame
      { initialState with
        board := [[⟨false, false, false, 0⟩, ⟨true, false, false, 1⟩]] }
      0 0 ⟨false, true, false, 0⟩).1 0 1 (by simp)
    rw [h]
    rfl
  · exact (setCell_frame
      { initialState with
        board := [[⟨false, false, false, 0⟩, ⟨true, false, false, 1⟩]] }
      0 0 ⟨false, true, false, 0⟩).2.2.2.2.2.2.2.2.1
  · refine (setCell_frame
      { initialState with
        board := [[⟨false, false, false, 0⟩, ⟨true, false, false, 1⟩]] }
      (-3) 7 ⟨false, true, false, 0⟩).2.2.2.2.2.2.2.2.2.2.2.2.2.2.2.2.2.2.2.2.2.2.2.2.2.2.2.2.2.2.2
      ?_
    intro rr cc _ hand
    omega

/-!
## Claim C8: `resetPvpState`
-/

/-- Claim C8: `resetPvpState` sets every PVP field and the game-over and
game-won flags back to their initial store values, and leaves the room,
the player name, the player stats, the board and the board configuration
(rows, columns, mines, difficulty, mode) unchanged. -/
theorem resetPvpState_resets_and_preserves (s : MinesweeperState) :
    (resetPvpState s).pvpStarted = initialState.pvpStarted
    ∧ (resetPvpState s).pvpPlayerIndex = initialState.pvpPlayerIndex
    ∧ (resetPvpState s).pvpOpponentName = initialState.pvpOpponentName
    ∧ (resetPvpState s).pvpOpponentStatus = initialState.pvpOpponentStatus
    ∧ (resetPvpState s).pvpWinner = initialState.pvpWinner
    ∧ (resetPvpState s).pvpRoomReady = initialState.pvpRoomReady
    ∧ (resetPvpState s).pvpIsHost = initialState.pvpIsHost
    ∧ (resetPvpState s).pvpOpponentProgress = initialState.pvpOpponentProgress
    ∧ (resetPvpState s).pvpTotalSafeCells = initialState.pvpTotalSafeCells
    ∧ (resetPvpState s).gameOver = initialState.gameOver
    ∧ (resetPvpState s).gameWon = initialState.gameWon
    ∧ (resetPvpState s).room = s.room
    ∧ (resetPvpState s).name = s.name
    ∧ (resetPvpState s).playerStatsInRoom = s.playerStatsInRoom
    ∧ (resetPvpState s).board = s.board
    ∧ (resetPvpState s).numRows = s.numRows
    ∧ (resetPvpState s).numCols = s.numCols
    ∧ (resetPvpState s).numMines = s.numMines
    ∧ (resetPvpState s).difficulty = s.difficulty
    ∧ (resetPvpState s).mode = s.mode :=
  ⟨rfl, rfl, rfl, rfl, rfl, rfl, rfl, rfl, rfl, rfl, rfl, rfl, rfl, rfl, rfl,
    rfl, rfl, rfl, rfl, rfl⟩

/-!
## Claim C10: PVP progress percentages (src/components/Timer.tsx)
-/

/-- The JavaScript `Math.round`: round half away from zero upward, i.e.
the floor of the argument plus one half. -/
def jsMathRound (x : ℚ) : Int := ⌊x + 1 / 2⌋

/-- The `opponentProgressPercent` memo of the Grid component. -/
def opponentProgressPercent (pvpOpponentProgress pvpTotalSafeCells : Int) : Int :=
  if pvpTotalSafeCells ≤ 0 then 0
  else jsMathRound ((pvpOpponentProgress : ℚ) / (pvpTotalSafeCells : ℚ) * 100)

/-- The `ownProgressPercent` memo of the Grid component, computed from
the `ownProgress` memo over the board. -/
def ownProgressPercent (board : List (List Cell)) (pvpTotalSafeCells : Int) : Int :=
  if pvpTotalSafeCells ≤ 0 then 0
  else jsMathRound ((ownProgress board : ℚ) / (pvpTotalSafeCells : ℚ) * 100)

/-- Claim C10: both progress-percentage computations return 0 whenever
the safe-cell total is non-positive, and otherwise equal the rounded
progress ratio times 100; the JavaScript rounding agrees with the
mathematical `round`. -/
theorem progressPercent_division_safe (board : List (List Cell))
    (pvpOpponentProgress pvpTotalSafeCells : Int) :
    (pvpTotalSafeCells ≤ 0 →
        ownProgressPercent board pvpTotalSafeCells = 0
        ∧ opponentProgressPercent pvpOpponentProgress pvpTotalSafeCells = 0)
    ∧ (0 < pvpTotalSafeCells →
        ownProgressPercent board pvpTotalSafeCells
            = jsMathRound ((ownProgress board : ℚ) / (pvpTotalSafeCells : ℚ) * 100)
        ∧ opponentProgressPercent pvpOpponentProgress pvpTotalSafeCells
            = jsMathRound
                ((pvpOpponentProgress : ℚ) / (pvpTotalSafeCells : ℚ) * 100))
    ∧ (∀ x : ℚ, jsMathRound x = round x) := by
  refine ⟨?_, ?_, ?_⟩
  · intro hle
    constructor <;> simp [ownProgressPercent, opponentProgressPercent, hle]
  · intro hpos
    have hne : ¬pvpTotalSafeCells ≤ 0 := by omega
    constructor <;> simp [ownProgressPercent, opponentProgressPercent, hne]
  · intro x
    rw [round_eq, jsMathRound]

/-- Witness for C10: with 0 safe cells the percentages are 0, and with 4
safe cells and 5 revealed the opponent percentage is the rounded ratio. -/
theorem progressPercent_division_safe_witness :
    (ownProgressPercent [] 0 = 0 ∧ opponentProgressPercent 5 0 = 0)
    ∧ opponentProgressPercent 5 4 = jsMathRound ((5 : ℚ) / (4 : ℚ) * 100) :=
  ⟨(progressPercent_division_safe [] 5 0).1 (by norm_num),
   ((progressPercent_division_safe [] 5 4).2.1 (by norm_num)).2⟩

/-!
## Socket client factory (src/unnamed socket client module)
-/

/-- The auth payload handed to the socket constructor. -/
structure AuthPayload where
  sessionId : String
deriving DecidableEq, Repr

/-- The options passed to the socket.io client constructor. -/
structure SocketOptions where
  reconnection : Bool
  autoConnect : Bool
  auth : AuthPayload
deriving DecidableEq, Repr

/-- A constructed (not yet connected) socket: the target URL and the
options it was created with. -/
structure ClientSocket where
  url : String
  options : SocketOptions
deriving DecidableEq, Repr

/-- The module-level `serverURL` constant: the `NEXT_PUBLIC_SERVER_URL`
environment entry when set and non-empty (JavaScript truthiness of the
logical-or), else the development or production URL. -/
def serverURL (nextPublicServerUrl : Option String) (isDevelopment : Bool) : String :=
  let fallbackUrl :=
    if isDevelopment then "http://localhost:3001"
    else "https://nameless-coast-33840-33c3fd45fe2d.herokuapp.com"
  match nextPublicServerUrl with
  | none => fallbackUrl
  | some u => if u = "" then fallbackUrl else u

/-- The client factory `initSocket`: builds a socket towards `serverURL`
with reconnection on, auto-connect off, and the supplied session
identifier as the auth payload. -/
def initSocket (nextPublicServerUrl : Option String) (isDevelopment : Bool)
    (sessionId : String) : ClientSocket :=
  { url := serverURL nextPublicServerUrl isDevelopment
    options :=
      { reconnection := true
        autoConnect := false
        auth := { sessionId := sessionId } } }

/-- Claim C3: for every session identifier, `initSocket` returns a socket
whose auth payload carries exactly that identifier, with reconnection
enabled and auto-connect disabled, whatever the environment. -/
theorem initSocket_auth_config (nextPublicServerUrl : Option String)
    (isDevelopment : Bool) (sessionId : String) :
    (initSocket nextPublicServerUrl isDevelopment sessionId).options.auth.sessionId
        = sessionId
    ∧ (initSocket nextPublicServerUrl isDevelopment sessionId).options.reconnection
        = true
    ∧ (initSocket nextPublicServerUrl isDevelopment sessionId).options.autoConnect
        = false :=
  ⟨rfl, rfl, rfl⟩

/-!
## Socket.io server options (src/server/utils/initializeClient.js)
-/

/-- The `connectionStateRecovery` block of the socket.io server options. -/
structure ConnectionStateRecoveryOptions where
  maxDisconnectionDuration : Nat
  skipMiddlewares : Bool
deriving DecidableEq, Repr

/-- The fixed options the socket.io `Server` is constructed with. -/
structure ServerOptions where
  path : String
  transports : List String
  allowEIO3 : Bool
  connectionStateRecovery : ConnectionStateRecoveryOptions
deriving DecidableEq, Repr

/-- The options object passed to `new Server(server, ...)`. -/
def ioServerOptions : ServerOptions :=
  { path := "/socket.io"
    transports := ["websocket", "polling"]
    allowEIO3 := true
    connectionStateRecovery :=
      { maxDisconnectionDuration := 2 * 60 * 1000
        skipMiddlewares := true } }

/-- Claim C4: the connection-state-recovery window fixed at server
construction is exactly two minutes: 2 * 60 * 1000 = 120000
milliseconds. -/
theorem maxDisconnectionDuration_two_minutes :
    ioServerOptions.connectionStateRecovery.maxDisconnectionDuration
        = 2 * 60 * 1000
    ∧ ioServerOptions.connectionStateRecovery.maxDisconnectionDuration = 120000 :=
  ⟨rfl, rfl⟩

/-- Witness for C3 at a concrete session identifier. -/
theorem initSocket_auth_config_witness :
    (initSocket none true "abc-123").options.auth.sessionId = "abc-123"
    ∧ (initSocket none true "abc-123").options.reconnection = true
    ∧ (initSocket none true "abc-123").options.autoConnect = false :=
  initSocket_auth_config none true "abc-123"

/-- Witness for C4: the recovery window in milliseconds. -/
theorem maxDisconnectionDuration_two_minutes_witness :
    ioServerOptions.connectionStateRecovery.maxDisconnectionDuration = 120000 :=
  maxDisconnectionDuration_two_minutes.2

/-!
## Redis session-store client (src/unnamed Redis module)
-/

/-- The environment entries the Redis module reads. -/
structure RedisEnv where
  redisUrl : Option String
  dbPass : Option String
  host : Option String
  redisPort : Option String
deriving DecidableEq, Repr

/-- The configuration `redis.createClient` is called with: either the
single `REDIS_URL`, or the individual username, password, host and port
entries. -/
inductive RedisClientConfig where
  | byUrl (url : String)
  | byFields (username : String) (password host port : Option String)
deriving DecidableEq, Repr

/-- The client-creation branch of `initializeRedisClient`: the
`REDIS_URL` form is used when that entry is set and non-empty (JavaScript
truthiness), else the individual entries with username `default`. -/
def createRedisClient (env : RedisEnv) : RedisClientConfig :=
  match env.redisUrl with
  | some u =>
      if u = "" then RedisClientConfig.byFields "default" env.dbPass env.host env.redisPort
      else RedisClientConfig.byUrl u
  | none => RedisClientConfig.byFields "default" env.dbPass env.host env.redisPort

/-- The interval of the session-store liveness probe, in milliseconds. -/
def pingIntervalMs : Nat := 60000

/-- One iteration of the liveness probe: awaits the ping and, when it
fails, catches the error inside the iteration and logs it. Returns the
log lines of the iteration together with the outcome of the iteration
itself (not of the ping). -/
def probeIteration (pingResult : Except String Unit) :
    List String × Except String Unit :=
  match pingResult with
  | Except.ok _ => ([], Except.ok ())
  | Except.error err => (["❌ Redis ping failed: " ++ err], Except.ok ())

/-- The body of `initializeRedisClient` around `client.connect()`: the
connect promise is awaited with a success log in `then` and an error log
in `catch`, and the function returns the created client either way.
Returns the log lines together with the outcome of the call. -/
def initializeRedisClient (env : RedisEnv) (connectResult : Except String Unit) :
    List String × Except String RedisClientConfig :=
  match connectResult with
  | Except.ok _ =>
      (["✅ Connected to Redis"], Except.ok (createRedisClient env))
  | Except.error err =>
      (["❌ Redis connection error: " ++ err], Except.ok (createRedisClient env))

/-- Claim C5: the liveness probe runs every 60000 milliseconds, a failing
ping is logged inside the probe iteration, and the iteration itself
always completes normally, whatever the ping outcome. -/
theorem probe_interval_and_no_escape :
    pingIntervalMs = 60000
    ∧ (∀ pingResult : Except String Unit,
        (probeIteration pingResult).2 = Except.ok ())
    ∧ (∀ err : String,
        (probeIteration (Except.error err)).1 = ["❌ Redis ping failed: " ++ err])
    ∧ (probeIteration (Except.ok ())).1 = [] :=
  ⟨rfl, fun pingResult => by cases pingResult <;> rfl, fun _ => rfl, rfl⟩

/-- Witness for C5 at a concrete failing ping. -/
theorem probe_interval_and_no_escape_witness :
    (probeIteration (Except.error "timeout")).2 = Except.ok ()
    ∧ (probeIteration (Except.error "timeout")).1
        = ["❌ Redis ping failed: " ++ "timeout"] :=
  ⟨probe_interval_and_no_escape.2.1 (Except.error "timeout"),
   probe_interval_and_no_escape.2.2.1 "timeout"⟩

/-- Claim C6: whatever the outcome of the connection attempt,
`initializeRedisClient` resolves with the created client; a failed
attempt is logged rather than rethrown. -/
theorem initializeRedisClient_resolves :
    (∀ (env : RedisEnv) (connectResult : Except String Unit),
        (initializeRedisClient env connectResult).2
          = Except.ok (createRedisClient env))
    ∧ (∀ (env : RedisEnv) (err : String),
        (initializeRedisClient env (Except.error err)).1
          = ["❌ Redis connection error: " ++ err]) :=
  ⟨fun env connectResult => by cases connectResult <;> rfl, fun _ _ => rfl⟩

/-- Witness for C6 at a concrete unreachable store. -/
theorem initializeRedisClient_resolves_witness :
    (initializeRedisClient ⟨none, none, none, none⟩ (Except.error "ECONNREFUSED")).2
        = Except.ok (createRedisClient ⟨none, none, none, none⟩)
    ∧ (initializeRedisClient ⟨none, none, none, none⟩ (Except.error "ECONNREFUSED")).1
        = ["❌ Redis connection error: " ++ "ECONNREFUSED"] :=
  ⟨initializeRedisClient_resolves.1 ⟨none, none, none, none⟩
      (Except.error "ECONNREFUSED"),
   initializeRedisClient_resolves.2 ⟨none, none, none, none⟩ "ECONNREFUSED"⟩

/-!
## Cross-origin validation (src/server/utils/initializeClient.js)
-/

/-- JavaScript truthiness of an optional string: `undefined` and the
empty string are falsy. -/
def jsTruthyString : Option String → Bool
  | none => false
  | some s => !(s == "")

/-- The literal entries of the `allowedOrigins` array: three fixed URLs
plus the optional `FRONTEND_URL` environment entry. -/
def corsBaseOrigins (frontendUrl : Option String) : List (Option String) :=
  [some "http://localhost:3000",
   some "https://minesweeper-test.vercel.app",
   some "https://www.minesweepercoop.com",
   frontendUrl]

/-- The allow-list after `.filter(Boolean)`: falsy entries removed. -/
def allowedOrigins (frontendUrl : Option String) : List String :=
  ((corsBaseOrigins frontendUrl).filter jsTruthyString).filterMap id

/-- The socket.io `cors.origin` callback: requests with a falsy origin
are accepted, and otherwise the origin is accepted exactly when the
allow-list includes it. -/
def corsOriginCallback (frontendUrl : Option String) (origin : Option String) : Bool :=
  match origin with
  | none => true
  | some o => if o = "" then true else decide (o ∈ allowedOrigins frontendUrl)

theorem mem_allowedOrigins (frontendUrl : Option String) (o : String) :
    o ∈ allowedOrigins frontendUrl ↔
      (o = "http://localhost:3000"
        ∨ o = "https://minesweeper-test.vercel.app"
        ∨ o = "https://www.minesweepercoop.com"
        ∨ (frontendUrl = some o ∧ o ≠ "")) := by
  cases frontendUrl with
  | none => simp [allowedOrigins, corsBaseOrigins, jsTruthyString]
  | some u =>
      by_cases hu : u = "" <;>
        simp [allowedOrigins, corsBaseOrigins, jsTruthyString, hu] <;>
          aesop

/-- Claim C7: the CORS decision is a pure predicate of the origin and
the configured allow-list: a request is accepted exactly when its origin
is absent or empty or a member of the allow-list, and the allow-list
holds exactly the three fixed URLs plus a set, non-empty `FRONTEND_URL`
entry. -/
theorem cors_allowlist_predicate (frontendUrl origin : Option String) :
    (corsOriginCallback frontendUrl origin = true ↔
      (origin = none ∨ origin = some ""
        ∨ ∃ o, origin = some o ∧ o ∈ allowedOrigins frontendUrl))
    ∧ (∀ o : String, o ∈ allowedOrigins frontendUrl ↔
        (o = "http://localhost:3000"
          ∨ o = "https://minesweeper-test.vercel.app"
          ∨ o = "https://www.minesweepercoop.com"
          ∨ (frontendUrl = some o ∧ o ≠ ""))) := by
  refine ⟨?_, mem_allowedOrigins frontendUrl⟩
  cases origin with
  | none => simp [corsOriginCallback]
  | some o =>
      by_cases ho : o = "" <;> simp [corsOriginCallback, ho]

/-- Witness for C7: a configured `FRONTEND_URL` is accepted, an unknown
origin is not. -/
theorem cors_allowlist_predicate_witness :
    corsOriginCallback (some "https://example.net") (some "https://example.net") = true
    ∧ corsOriginCallback none (some "https://evil.example") = false := by
  constructor
  · exact (cors_allowlist_predicate (some "https://example.net")
      (some "https://example.net")).1.mpr
      (Or.inr (Or.inr ⟨"https://example.net", rfl,
        (mem_allowedOrigins _ _).mpr (Or.inr (Or.inr (Or.inr ⟨rfl, by decide⟩)))⟩))
  · rfl

/-- Witness for C8 at the initial state with a room set. -/
theorem resetPvpState_resets_and_preserves_witness :
    (resetPvpState { initialState with room := "ABCD", pvpStarted := true }).pvpStarted
        = false
    ∧ (resetPvpState { initialState with room := "ABCD", pvpStarted := true }).room
        = "ABCD" :=
  ⟨(resetPvpState_resets_and_preserves
      { initialState with room := "ABCD", pvpStarted := true }).1,
   (resetPvpState_resets_and_preserves
      { initialState with room := "ABCD", pvpStarted := true }).2.2.2.2.2.2.2.2.2.2.2.1⟩

end Minesweeper
